import Mathlib

/-!
Verification of the Tactical-Telemetry-Radar-Sim core (src/receiver_ui.py and
src/sender.py) against its natural-language specification.

Modelling conventions:
* Python floats are modelled as exact rationals (ℚ); Python ints as ℤ.
* A decoded JSON scalar is a `JVal` (null / number / string / bool); the
  messages of this system carry only scalars in the fields the core reads.
* A message is a record of `Option JVal` fields: `none` models a key that is
  absent from the dict, `some .null` a key present with JSON null.
* Python code that can raise is modelled with an explicit success flag or
  `Option`: a `false` / `none` result means an exception escaped, and the
  accompanying state is the state as mutated up to the raise point.
* The random number generator is modelled by passing each drawn value as an
  explicit argument (the seeded `Random` instance of the source is a pure
  stream, so every draw is data).
-/

/-- A decoded JSON scalar value (the subset of JSON the core ever touches). -/
inductive JVal : Type
  | null : JVal
  | num : ℚ → JVal
  | str : String → JVal
  | bool : Bool → JVal
deriving DecidableEq

/-- Value of a nonempty all-digit character list; `none` if any char is not
a digit.  (Helper for the Python numeric-string coercions.) -/
def digitsVal (cs : List Char) : Option ℕ :=
  cs.foldl
    (fun acc c =>
      match acc with
      | none => none
      | some n => if c.isDigit then some (n * 10 + (c.toNat - 48)) else none)
    (some 0)

/-- Python `int(s)` on a string: optional surrounding whitespace, optional
sign, then decimal digits only (`int("3.5")` raises). -/
def strToInt (s : String) : Option ℤ :=
  let cs := s.trim.toList
  let sgn : ℤ := match cs with
    | '-' :: _ => -1
    | _ => 1
  let cs := match cs with
    | '-' :: tl => tl
    | '+' :: tl => tl
    | c :: tl => c :: tl
    | [] => []
  if cs = [] then none else (digitsVal cs).map (fun n => sgn * n)

/-- Python `float(s)` on a string: optional whitespace and sign, decimal
digits with at most one dot.  (Exponent forms and `inf`/`nan` are not
modelled; no claim depends on them.) -/
def strToFloat (s : String) : Option ℚ :=
  let cs := s.trim.toList
  let sgn : ℚ := match cs with
    | '-' :: _ => -1
    | _ => 1
  let cs := match cs with
    | '-' :: tl => tl
    | '+' :: tl => tl
    | c :: tl => c :: tl
    | [] => []
  let ip := cs.takeWhile (fun c => c ≠ '.')
  let rest := cs.drop ip.length
  match rest with
  | [] => if ip = [] then none else (digitsVal ip).map (fun n => sgn * n)
  | _ :: fp =>
      if ip = [] ∧ fp = [] then none
      else
        match digitsVal ip, digitsVal fp with
        | some n, some m => some (sgn * ((n : ℚ) + (m : ℚ) / (10 ^ fp.length)))
        | _, _ => none

/-- Truncation toward zero, the behaviour of Python `int()` on a float. -/
def truncInt (q : ℚ) : ℤ := if 0 ≤ q then ⌊q⌋ else ⌈q⌉

/-- Python `float(v)` on a decoded JSON scalar: numbers coerce exactly,
booleans to 0/1, numeric strings parse, `None` raises (`none`). -/
def pyFloat : JVal → Option ℚ
  | .null => none
  | .num q => some q
  | .str s => strToFloat s
  | .bool b => some (if b then 1 else 0)

/-- Python `int(v)` on a decoded JSON scalar: numbers truncate toward zero,
booleans to 0/1, pure-integer strings parse, `None` raises (`none`). -/
def pyInt : JVal → Option ℤ
  | .null => none
  | .num q => some (truncInt q)
  | .str s => strToInt s
  | .bool b => some (if b then 1 else 0)

/-- Python `str(v)` on a decoded JSON scalar.  The numeral rendering of
numbers is abstracted by `toString`; only its totality matters here. -/
def pyStr : JVal → String
  | .null => "None"
  | .num q => toString q
  | .str s => s
  | .bool b => if b then "True" else "False"

/-- `wrap360` from both src/sender.py and src/receiver_ui.py:
`deg % 360.0`, Python float modulo with a positive modulus (result carries
the sign of the modulus), modelled exactly on ℚ. -/
def wrap360 (deg : ℚ) : ℚ := deg - 360 * ⌊deg / 360⌋

theorem wrap360_eq_fract (deg : ℚ) : wrap360 deg = 360 * Int.fract (deg / 360) := by
  unfold wrap360 Int.fract
  have h : (360 : ℚ) * (deg / 360) = deg := by
    field_simp
  rw [mul_sub, h]

theorem wrap360_nonneg (deg : ℚ) : 0 ≤ wrap360 deg := by
  rw [wrap360_eq_fract]
  exact mul_nonneg (by norm_num) (Int.fract_nonneg _)

theorem wrap360_lt (deg : ℚ) : wrap360 deg < 360 := by
  rw [wrap360_eq_fract]
  have h := Int.fract_lt_one (deg / 360)
  nlinarith

theorem wrap360_eq_self (deg : ℚ) (h0 : 0 ≤ deg) (h1 : deg < 360) : wrap360 deg = deg := by
  unfold wrap360
  have hf : ⌊deg / 360⌋ = 0 := by
    rw [Int.floor_eq_zero_iff]
    constructor
    · positivity
    · rw [div_lt_one (by norm_num)]
      exact h1
  rw [hf]
  ring

/-- The wire message as a decoded JSON object: each field of the fixed key
set the core reads, `none` when the key is absent. -/
structure Msg : Type where
  msg_type : Option JVal
  entity_id : Option JVal
  entity_type : Option JVal
  x : Option JVal
  y : Option JVal
  heading_deg : Option JVal
  speed : Option JVal
  status : Option JVal
  seq : Option JVal
deriving DecidableEq

/-- The all-absent message, a convenience base to build concrete messages. -/
def emptyMsg : Msg :=
  { msg_type := none, entity_id := none, entity_type := none, x := none,
    y := none, heading_deg := none, speed := none, status := none, seq := none }

/-- `float(msg.get(key, dflt))` where `dflt` is an attribute that is already
a Python float: absent key coerces the default (identity), a present value
goes through `pyFloat` and may raise. -/
def getFloat (v : Option JVal) (dflt : ℚ) : Option ℚ :=
  match v with
  | none => some dflt
  | some w => pyFloat w

/-- `int(msg.get(key, dflt))` where `dflt` is already a Python int. -/
def getInt (v : Option JVal) (dflt : ℤ) : Option ℤ :=
  match v with
  | none => some dflt
  | some w => pyInt w

/-- `str(msg.get(key, dflt))` where `dflt` is already a string (total). -/
def getStr (v : Option JVal) (dflt : String) : String :=
  match v with
  | none => dflt
  | some w => pyStr w

/-- `deque(maxlen=cap)` append: push right, evict oldest from the left when
the capacity is exceeded. -/
def dequeAppend (cap : ℕ) (h : List (ℤ × ℤ)) (a : ℤ × ℤ) : List (ℤ × ℤ) :=
  let h2 := h ++ [a]
  if cap < h2.length then h2.drop (h2.length - cap) else h2

/-- `TrackState` of src/receiver_ui.py.  `entity_id` and `entity_type` hold
the raw message values (any JSON scalar); numeric fields are coerced floats/
ints.  The history capacity is fixed at 25, the value the receiver uses. -/
structure TrackState : Type where
  entity_id : JVal
  entity_type : JVal
  x : ℚ
  y : ℚ
  heading : ℚ
  speed : ℚ
  status : String
  seq : ℤ
  last_rx_time : ℚ
  history : List (ℤ × ℤ)
deriving DecidableEq

/-- `TrackState.__init__` (history_len = 25 as used by the receiver). -/
def initTrack : TrackState :=
  { entity_id := .null, entity_type := .str "", x := 0, y := 0, heading := 0,
    speed := 0, status := "NO_DATA", seq := 0, last_rx_time := 0, history := [] }

/-- `TrackState.update_from_msg` (src/receiver_ui.py lines 55-67).
Assignments happen in source order; a coercion failure raises at that point,
so the returned state carries every assignment made before the raise and the
Bool is false (exception escaped).  On success the receipt time is stored and
`(int(x), int(y))` is appended to the bounded history. -/
def TrackState.update_from_msg (tr : TrackState) (msg : Msg) (rx_time : ℚ) :
    TrackState × Bool :=
  let tr1 : TrackState :=
    { tr with entity_id := msg.entity_id.getD tr.entity_id,
              entity_type := msg.entity_type.getD tr.entity_type }
  match getFloat msg.x tr1.x with
  | none => (tr1, false)
  | some xv =>
    let tr2 := { tr1 with x := xv }
    match getFloat msg.y tr2.y with
    | none => (tr2, false)
    | some yv =>
      let tr3 := { tr2 with y := yv }
      match getFloat msg.heading_deg tr3.heading with
      | none => (tr3, false)
      | some hv =>
        let tr4 := { tr3 with heading := wrap360 hv }
        match getFloat msg.speed tr4.speed with
        | none => (tr4, false)
        | some sv =>
          let tr5 := { tr4 with speed := sv }
          let tr6 := { tr5 with status := getStr msg.status tr5.status }
          match getInt msg.seq tr6.seq with
          | none => (tr6, false)
          | some sq =>
            let tr7 := { tr6 with seq := sq, last_rx_time := rx_time }
            ({ tr7 with
                history := dequeAppend 25 tr7.history (truncInt tr7.x, truncInt tr7.y) },
             true)

/-- Association-list lookup, modelling Python dict indexing (dicts keep
insertion order; keys are compared by equality). -/
def alGet {κ β : Type} [DecidableEq κ] : List (κ × β) → κ → Option β
  | [], _ => none
  | (k, v) :: tl, k2 => if k2 = k then some v else alGet tl k2

/-- Association-list store: replace in place when the key exists, else
append (Python dict assignment). -/
def alSet {κ β : Type} [DecidableEq κ] : List (κ × β) → κ → β → List (κ × β)
  | [], k, v => [(k, v)]
  | (k1, v1) :: tl, k, v =>
      if k = k1 then (k, v) :: tl else (k1, v1) :: alSet tl k v

/-- The receiver's message-handling state: the `tracks` dict keyed by the raw
`entity_id` value, plus the packet counters and the sequence analyzer state
captured by `process_message` (src/receiver_ui.py lines 214-221, 243-271). -/
structure RxState : Type where
  tracks : List (JVal × TrackState)
  msg_count_total : ℕ
  msg_count_window : ℕ
  max_seq_seen : Option ℤ
  seq_drop_est : ℤ
deriving DecidableEq

/-- The receiver state at program start. -/
def initRx : RxState :=
  { tracks := [], msg_count_total := 0, msg_count_window := 0,
    max_seq_seen := none, seq_drop_est := 0 }

/-- The sequence-analyzer step of `process_message` (src/receiver_ui.py
lines 253-260), on an already-coerced `seq`. -/
def seqUpdate (mss : Option ℤ) (dropEst : ℤ) (s : ℤ) : Option ℤ × ℤ :=
  match mss with
  | none => (some s, dropEst)
  | some m =>
      if m < s then
        (some s, if 1 < s - m then dropEst + (s - m - 1) else dropEst)
      else (some m, dropEst)

/-- The whole guarded `try`-block of the analyzer: `int(msg.get("seq"))`
raises (and is swallowed) when `seq` is absent, null or non-coercible. -/
def seqAccount (mss : Option ℤ) (dropEst : ℤ) (seqField : Option JVal) :
    Option ℤ × ℤ :=
  match seqField with
  | none => (mss, dropEst)
  | some v =>
      match pyInt v with
      | none => (mss, dropEst)
      | some s => seqUpdate mss dropEst s

/-- `process_message` (src/receiver_ui.py lines 243-271).  The Bool is false
when an exception escaped (a numeric coercion inside `update_from_msg`
raised); the returned state carries every mutation made before the raise,
because the track object is mutated in place in the source. -/
def process_message (st : RxState) (msg : Msg) (rx_time : ℚ) : RxState × Bool :=
  if msg.msg_type ≠ some (.str "EntityState") then (st, true)
  else
    let st1 := { st with msg_count_total := st.msg_count_total + 1,
                         msg_count_window := st.msg_count_window + 1 }
    let md := seqAccount st1.max_seq_seen st1.seq_drop_est msg.seq
    let st2 := { st1 with max_seq_seen := md.1, seq_drop_est := md.2 }
    match msg.entity_id with
    | none => (st2, true)
    | some .null => (st2, true)
    | some eid =>
      let tr := (alGet st2.tracks eid).getD initTrack
      let res := TrackState.update_from_msg tr msg rx_time
      ({ st2 with tracks := alSet st2.tracks eid res.1 }, res.2)

/-- The per-tick ingestion loop body `for msg in msgs: process_message(...)`
(src/receiver_ui.py lines 326-332): messages are processed in order; an
exception escaping `process_message` aborts the loop (and the program), so
the remaining messages are never processed.  Bool false = loop aborted. -/
def ingest (st : RxState) (msgs : List Msg) (rx_time : ℚ) : RxState × Bool :=
  match msgs with
  | [] => (st, true)
  | m :: rest =>
      let res := process_message st m rx_time
      if res.2 then ingest res.1 rest rx_time else (res.1, false)

/-- `is_stale` (src/receiver_ui.py lines 238-241), with the captured
`stale_seconds` threshold made an explicit parameter. -/
def is_stale (track : TrackState) (now_ts : ℚ) (stale_seconds : ℚ) : Bool :=
  if track.last_rx_time ≤ 0 then true
  else decide (stale_seconds < now_ts - track.last_rx_time)

/-- The receiver's configured staleness threshold (src/receiver_ui.py
line 212): 2.0 seconds. -/
def stale_seconds_default : ℚ := 2

/-- `ReplayItem` of src/receiver_ui.py: relative offset plus message body. -/
structure ReplayItem : Type where
  t : ℚ
  msg : Msg
deriving DecidableEq

/-- The `Replayer` object's state (src/receiver_ui.py lines 100-105). -/
structure Replayer : Type where
  enabled : Bool
  items : List ReplayItem
  index : ℕ
  replay_start_wall : Option ℚ
deriving DecidableEq

/-- A `Replayer` right after `__init__`, and also the state `load` resets to
before touching the file. -/
def clearedReplayer : Replayer :=
  { enabled := false, items := [], index := 0, replay_start_wall := none }

/-- One line of the capture file that passed `json.loads`: its `_rx_time`
field (absent allowed) and the remaining message body.  A whole file is a
`List (Option CaptureLine)`; a `none` entry is a line on which `json.loads`
raises. -/
structure CaptureLine : Type where
  rx_time : Option JVal
  msg : Msg
deriving DecidableEq

/-- The per-line body of `Replayer.load` (src/receiver_ui.py lines 117-124):
`rx_t = float(msg.get("_rx_time", 0.0))`, `_rx_time` popped from the body;
any exception (unparseable line, non-coercible `_rx_time`) skips the line. -/
def parseLine (l : Option CaptureLine) : Option (ℚ × Msg) :=
  match l with
  | none => none
  | some cl =>
      match getFloat cl.rx_time 0 with
      | none => none
      | some t => some (t, cl.msg)

/-- `Replayer.load` (src/receiver_ui.py lines 107-133).  The file system is
modelled as `Option (List (Option CaptureLine))`: `none` is a missing path
(where `open` raises `FileNotFoundError`, uncaught — result `none` — after
the state resets that precede it), `some lines` the stripped nonblank lines.
`load` ignores the prior state entirely (it resets every field first), so it
is a function of the file alone; result `some ok` is the returned Bool. -/
def Replayer.load (fs : Option (List (Option CaptureLine))) :
    Replayer × Option Bool :=
  match fs with
  | none => (clearedReplayer, none)
  | some lines =>
      let parsed := lines.filterMap parseLine
      match parsed with
      | [] => (clearedReplayer, some false)
      | (t0, _) :: _ =>
          ({ clearedReplayer with
              items := parsed.map (fun p => { t := p.1 - t0, msg := p.2 }) },
           some true)

/-- `Replayer.start` (src/receiver_ui.py lines 135-140): no-op when nothing
is loaded, else enable, reset the cursor and record the wall-clock start. -/
def Replayer.start (rp : Replayer) (now : ℚ) : Replayer :=
  if rp.items.isEmpty then rp
  else { rp with enabled := true, index := 0, replay_start_wall := some now }

/-- `Replayer.stop` (src/receiver_ui.py lines 142-143). -/
def Replayer.stop (rp : Replayer) : Replayer := { rp with enabled := false }

/-- The release count of the `poll` while-loop: walking the not-yet-released
items in order, how many are released before hitting either an item that is
not yet due (`t > elapsed`), the per-call bound, or the end of the list. -/
def pollCount : List ReplayItem → ℚ → ℕ → ℕ
  | [], _, _ => 0
  | _ :: _, _, 0 => 0
  | it :: tl, elapsed, n + 1 =>
      if it.t ≤ elapsed then pollCount tl elapsed n + 1 else 0

/-- `Replayer.poll` (src/receiver_ui.py lines 145-164).  Result `none` models
the unreachable raise when `replay_start_wall` is unset while enabled (Python
`now - None`); via the public API `start` always sets it before `poll` runs
enabled.  The while-loop is expressed by `pollCount`: the released messages
are the first `pollCount ...` of the remaining items, the cursor advances by
that many, and `stop()` fires iff the cursor reached the end. -/
def Replayer.poll (rp : Replayer) (now : ℚ) (max_per_frame : ℕ) :
    Option (Replayer × List Msg) :=
  if ¬ rp.enabled ∨ rp.items.isEmpty then some (rp, [])
  else
    match rp.replay_start_wall with
    | none => none
    | some s =>
        let elapsed := now - s
        let rest := rp.items.drop rp.index
        let k := pollCount rest elapsed max_per_frame
        let idx2 := rp.index + k
        let rp2 := { rp with index := idx2,
                             enabled := if rp.items.length ≤ idx2 then false
                                        else rp.enabled }
        some (rp2, (rest.take k).map ReplayItem.msg)

/-- The receiver's mode flag (src/receiver_ui.py line 209). -/
inductive RxMode : Type
  | live : RxMode
  | replay : RxMode
deriving DecidableEq

/-- The pieces of the receiver's main-loop state that the P-key (replay
toggle) handler touches. -/
structure UiState : Type where
  mode : RxMode
  tracks : List (JVal × TrackState)
  rep : Replayer
deriving DecidableEq

/-- The P-key handler of `main` (src/receiver_ui.py lines 292-302): in
replay mode stop and return to live; in live mode run `load` and only on a
true result clear the tracks, start the replayer and switch mode.  Result
`none` = an exception from `load` escaped the event loop (missing file). -/
def handlePKey (ui : UiState) (fs : Option (List (Option CaptureLine)))
    (now : ℚ) : Option UiState :=
  if ui.mode = .replay then
    some { ui with rep := ui.rep.stop, mode := .live }
  else
    let res := Replayer.load fs
    match res.2 with
    | none => none
    | some false => some { ui with rep := res.1 }
    | some true =>
        some { mode := .replay, tracks := [], rep := res.1.start now }

/-- `Entity` of src/sender.py. -/
structure Entity : Type where
  entity_id : ℤ
  entity_type : String
  x : ℚ
  y : ℚ
  heading : ℚ
  speed : ℚ
  status : String
deriving DecidableEq

/-- Per-entity fault state (src/sender.py `_default_fault_state`). -/
structure FaultState : Type where
  jam_until : ℚ
  drop_burst_remaining : ℤ
  heading_noise_until : ℚ
  heading_noise_deg : ℚ
deriving DecidableEq

/-- `UdpSimSender._default_fault_state` (src/sender.py lines 80-86). -/
def default_fault_state : FaultState :=
  { jam_until := 0, drop_burst_remaining := 0,
    heading_noise_until := 0, heading_noise_deg := 0 }

/-- The slice of `UdpSimSender` state the fault injector reads and writes
(src/sender.py lines 64-78): configuration, throttle timestamp, the
per-entity fault dict, and the two fault counters. -/
structure UdpSimSender : Type where
  faults_enabled : Bool
  fault_check_interval : ℚ
  fault_trigger_prob : ℚ
  last_fault_check : ℚ
  faults : List (ℤ × FaultState)
  total_packets_jammed_fault : ℕ
  total_packets_dropped_fault : ℕ
deriving DecidableEq

/-- `UdpSimSender._fault_active` (src/sender.py lines 136-141). -/
def UdpSimSender.fault_active (f : FaultState) (now_ts : ℚ) : Bool :=
  decide (now_ts < f.jam_until) || decide (0 < f.drop_burst_remaining) ||
    decide (now_ts < f.heading_noise_until)

/-- Which branch of the random fault chooser was drawn. -/
inductive FaultKind : Type
  | jam : FaultKind
  | drop_burst : FaultKind
  | heading_noise : FaultKind
deriving DecidableEq

/-- `UdpSimSender.maybe_inject_random_fault` (src/sender.py lines 143-188).
Every RNG draw is an explicit argument: `roll` is `rng.random()`, `eid` the
id of the entity picked by `rng.choice(self.entities)` (so the source's
nonempty-entities guard is implied by the draw existing), `kind` the fault
kind choice, `dur`/`count`/`deg` the magnitude draws of whichever branch
runs.  Mirrors the source: enabled gate, throttle (which updates
`last_fault_check`), trigger-probability gate (`rng.random() > prob`
returns), `faults.setdefault`, active-fault skip, then one window start. -/
def UdpSimSender.maybe_inject_random_fault (s : UdpSimSender)
    (now_ts roll : ℚ) (eid : ℤ) (kind : FaultKind)
    (dur : ℚ) (count : ℤ) (deg : ℚ) : UdpSimSender :=
  if ¬ s.faults_enabled then s
  else if now_ts - s.last_fault_check < s.fault_check_interval then s
  else
    let s1 := { s with last_fault_check := now_ts }
    if s1.fault_trigger_prob < roll then s1
    else
      let f := (alGet s1.faults eid).getD default_fault_state
      let s2 := { s1 with faults :=
        (match alGet s1.faults eid with
         | some _ => s1.faults
         | none => s1.faults ++ [(eid, default_fault_state)]) }
      if UdpSimSender.fault_active f now_ts then s2
      else
        let f2 := match kind with
          | .jam => { f with jam_until := now_ts + dur }
          | .drop_burst =>
              { f with drop_burst_remaining := f.drop_burst_remaining + count }
          | .heading_noise =>
              { f with heading_noise_until := now_ts + dur,
                       heading_noise_deg := deg }
        { s2 with faults := alSet s2.faults eid f2 }

/-- `UdpSimSender.apply_faults_to_msg` (src/sender.py lines 190-224).
`noise` is the `rng.uniform(-deg, deg)` draw of the noise branch.  The
entity is returned unchanged: the source reads only `ent.entity_id` and
never writes the entity, so any mutation would be visible here.  The Bool is
the `should_send` result.  The returned message models `out = dict(msg)`
(a value copy); in the noise branch the heading write and the `status`
annotation happen only if `float(out.get("heading_deg", 0.0))` does not
raise (the `try`/`except` swallows the failure and sends the copy as-is). -/
def UdpSimSender.apply_faults_to_msg (s : UdpSimSender) (ent : Entity)
    (now_ts noise : ℚ) (msg : Msg) : UdpSimSender × Entity × Bool × Msg :=
  let eid := ent.entity_id
  let f := (alGet s.faults eid).getD default_fault_state
  let s1 := { s with faults :=
    (match alGet s.faults eid with
     | some _ => s.faults
     | none => s.faults ++ [(eid, default_fault_state)]) }
  if now_ts < f.jam_until then
    ({ s1 with total_packets_jammed_fault := s1.total_packets_jammed_fault + 1 },
     ent, false, msg)
  else if 0 < f.drop_burst_remaining then
    ({ s1 with
        faults := alSet s1.faults eid
          { f with drop_burst_remaining := f.drop_burst_remaining - 1 },
        total_packets_dropped_fault := s1.total_packets_dropped_fault + 1 },
     ent, false, msg)
  else if now_ts < f.heading_noise_until then
    match getFloat msg.heading_deg 0 with
    | some h =>
        (s1, ent, true,
         { msg with heading_deg := some (.num (wrap360 (h + noise))),
                    status := some (.str "NOISY") })
    | none => (s1, ent, true, msg)
  else
    ({ s1 with faults := alSet s1.faults eid { f with heading_noise_deg := 0 } },
     ent, true, msg)

/-- An EntityState message carrying only a `seq` number (all other keys
absent), as used by the sequence-analyzer scenarios. -/
def mkSeqMsg (n : ℤ) : Msg :=
  { emptyMsg with msg_type := some (.str "EntityState"), seq := some (.num (n : ℚ)) }

/-- Claim C7: `is_stale(track, now, threshold)` is true iff the track never
received a message (`last_rx_time ≤ 0`) or `now − last_rx_time > threshold`;
with the default threshold 2.0 s, `now − last_rx_time = 1.999` is not stale
and `2.001` is stale. -/
theorem C7_thm :
    (∀ (track : TrackState) (now_ts threshold : ℚ),
       is_stale track now_ts threshold = true ↔
         (track.last_rx_time ≤ 0 ∨ threshold < now_ts - track.last_rx_time)) ∧
    (∀ (track : TrackState) (now_ts : ℚ), 0 < track.last_rx_time →
       now_ts - track.last_rx_time = 1.999 →
       is_stale track now_ts stale_seconds_default = false) ∧
    (∀ (track : TrackState) (now_ts : ℚ), 0 < track.last_rx_time →
       now_ts - track.last_rx_time = 2.001 →
       is_stale track now_ts stale_seconds_default = true) := by
  refine ⟨?_, ?_, ?_⟩
  · intro tr now th
    by_cases h : tr.last_rx_time ≤ 0
    · simp [is_stale, h]
    · simp [is_stale, h]
  · intro tr now h1 h2
    simp only [is_stale, stale_seconds_default]
    rw [if_neg (not_le.mpr h1)]
    simp only [decide_eq_false_iff_not]
    rw [h2]
    norm_num
  · intro tr now h1 h2
    simp only [is_stale, stale_seconds_default]
    rw [if_neg (not_le.mpr h1)]
    simp only [decide_eq_true_eq]
    rw [h2]
    norm_num

theorem C7_witness :
    is_stale { initTrack with last_rx_time := 1 } 2.999 stale_seconds_default = false ∧
    is_stale { initTrack with last_rx_time := 1 } 3.001 stale_seconds_default = true :=
  ⟨C7_thm.2.1 _ _ (by norm_num [initTrack]) (by norm_num [initTrack]),
   C7_thm.2.2 _ _ (by norm_num [initTrack]) (by norm_num [initTrack])⟩

/-- Claim C5: the sequence analyzer initializes `max_seq_seen` on the first
seq; on `seq > max` it adds `gap − 1` to the drop estimate when the gap
exceeds 1 and advances `max`; on `seq ≤ max` it changes nothing; and the
accepted seq sequence [1,1,2,2,5,5] run through `process_message` yields
`max_seq_seen = 5` and `seq_drop_est = 2`. -/
theorem C5_thm :
    (∀ (d s : ℤ), seqUpdate none d s = (some s, d)) ∧
    (∀ (m d s : ℤ), m < s → 1 < s - m →
       seqUpdate (some m) d s = (some s, d + (s - m - 1))) ∧
    (∀ (m d s : ℤ), m < s → ¬ 1 < s - m →
       seqUpdate (some m) d s = (some s, d)) ∧
    (∀ (m d s : ℤ), s ≤ m → seqUpdate (some m) d s = (some m, d)) ∧
    ((([1, 1, 2, 2, 5, 5] : List ℤ).map mkSeqMsg).foldl
        (fun st m => (process_message st m 0).1) initRx).max_seq_seen = some 5 ∧
    ((([1, 1, 2, 2, 5, 5] : List ℤ).map mkSeqMsg).foldl
        (fun st m => (process_message st m 0).1) initRx).seq_drop_est = 2 := by
  refine ⟨fun d s => rfl, ?_, ?_, ?_, by decide, by decide⟩
  · intro m d s h1 h2
    simp [seqUpdate, h1, h2]
  · intro m d s h1 h2
    simp [seqUpdate, h1, h2]
  · intro m d s h
    simp [seqUpdate, not_lt.mpr h]

theorem C5_witness :
    seqUpdate (some 2) 0 5 = (some 5, 0 + (5 - 2 - 1)) ∧
    seqUpdate (some 5) 2 5 = (some 5, 2) :=
  ⟨C5_thm.2.1 2 0 5 (by decide) (by decide), C5_thm.2.2.2.1 5 2 5 (by decide)⟩

/-- Claim C9: every accepted message leaves the stored track heading in
[0,360), including for negative and ≥ 360 input headings (concrete cases:
-90 is stored as 270, 725 as 5). -/
theorem C9_thm :
    (∀ (tr tr2 : TrackState) (msg : Msg) (rx : ℚ),
       TrackState.update_from_msg tr msg rx = (tr2, true) →
       0 ≤ tr2.heading ∧ tr2.heading < 360) ∧
    (TrackState.update_from_msg initTrack
        { emptyMsg with heading_deg := some (.num (-90)) } 1).1.heading = 270 ∧
    (TrackState.update_from_msg initTrack
        { emptyMsg with heading_deg := some (.num 725) } 1).1.heading = 5 := by
  refine ⟨?_, ?_, ?_⟩
  · intro tr tr2 msg rx h
    simp only [TrackState.update_from_msg] at h
    split at h
    next => simp at h
    next xv hx =>
      split at h
      next => simp at h
      next yv hy =>
        split at h
        next => simp at h
        next hv hh =>
          split at h
          next => simp at h
          next sv hs =>
            split at h
            next => simp at h
            next sq hq =>
              obtain ⟨h1, -⟩ := Prod.mk.injEq .. ▸ h
              subst h1
              exact ⟨wrap360_nonneg hv, wrap360_lt hv⟩
  · rw [show (TrackState.update_from_msg initTrack
        { emptyMsg with heading_deg := some (.num (-90)) } 1).1.heading =
        wrap360 (-90) from rfl]
    norm_num [wrap360]
  · rw [show (TrackState.update_from_msg initTrack
        { emptyMsg with heading_deg := some (.num 725) } 1).1.heading =
        wrap360 725 from rfl]
    norm_num [wrap360]

theorem C9_witness :
    0 ≤ (TrackState.update_from_msg initTrack
          { emptyMsg with heading_deg := some (.num (-90)) } 1).1.heading ∧
    (TrackState.update_from_msg initTrack
          { emptyMsg with heading_deg := some (.num (-90)) } 1).1.heading < 360 :=
  C9_thm.1 initTrack
    (TrackState.update_from_msg initTrack
      { emptyMsg with heading_deg := some (.num (-90)) } 1).1
    { emptyMsg with heading_deg := some (.num (-90)) } 1
    (Prod.ext_iff.mpr ⟨rfl, by decide⟩)

/-- Claim C10: a message with `msg_type = "EntityState"` but no `entity_id`
still increments both packet counters and still runs the seq/drop
accounting, while creating or modifying no track; any other `msg_type`
changes nothing. -/
theorem C10_thm :
    (∀ (st : RxState) (msg : Msg) (rx : ℚ),
       msg.msg_type = some (.str "EntityState") → msg.entity_id = none →
       process_message st msg rx =
         ({ st with
             msg_count_total := st.msg_count_total + 1,
             msg_count_window := st.msg_count_window + 1,
             max_seq_seen :=
               (seqAccount st.max_seq_seen st.seq_drop_est msg.seq).1,
             seq_drop_est :=
               (seqAccount st.max_seq_seen st.seq_drop_est msg.seq).2 }, true)) ∧
    (∀ (st : RxState) (msg : Msg) (rx : ℚ),
       msg.msg_type ≠ some (.str "EntityState") →
       process_message st msg rx = (st, true)) := by
  constructor
  · intro st msg rx hmt hid
    simp [process_message, hmt, hid]
  · intro st msg rx hmt
    simp [process_message, hmt]

theorem C10_witness :
    process_message initRx (mkSeqMsg 3) 0 =
      ({ initRx with
          msg_count_total := initRx.msg_count_total + 1,
          msg_count_window := initRx.msg_count_window + 1,
          max_seq_seen :=
            (seqAccount initRx.max_seq_seen initRx.seq_drop_est (mkSeqMsg 3).seq).1,
          seq_drop_est :=
            (seqAccount initRx.max_seq_seen initRx.seq_drop_est (mkSeqMsg 3).seq).2 },
       true) :=
  C10_thm.1 initRx (mkSeqMsg 3) 0 rfl rfl

/-- An accepted EntityState message that carries `status: null`. -/
def c2NullMsg : Msg :=
  { emptyMsg with msg_type := some (.str "EntityState"),
                  entity_id := some (.num 1), status := some .null }

/-- Claim C2 counterexample: an accepted message with `status` present but
null does NOT leave the track's status unchanged — `str(None)` overwrites it
with the string "None" (prior value "NO_DATA"). -/
theorem C2_counterexample :
    (TrackState.update_from_msg initTrack c2NullMsg 1).2 = true ∧
    (TrackState.update_from_msg initTrack c2NullMsg 1).1.status = "None" ∧
    initTrack.status = "NO_DATA" :=
  ⟨by decide, by decide, rfl⟩

/-- Claim C2 as amended: for every accepted message, an absent field leaves
the track field unchanged (heading via an identity re-wrap on the maintained
[0,360) range); a present field overwrites — `entity_id`/`entity_type` with
the raw value (null included), `status` with the `str()` rendering (null
becomes "None"), numeric fields with their coerced value (heading wrapped
into [0,360)).  Null numeric fields never occur in accepted messages (the
coercion raises, rejecting the message). -/
theorem C2_amended_thm (tr : TrackState) (msg : Msg) (rx : ℚ) (tr2 : TrackState)
    (h : TrackState.update_from_msg tr msg rx = (tr2, true)) :
    (msg.entity_id = none → tr2.entity_id = tr.entity_id) ∧
    (∀ v, msg.entity_id = some v → tr2.entity_id = v) ∧
    (msg.entity_type = none → tr2.entity_type = tr.entity_type) ∧
    (∀ v, msg.entity_type = some v → tr2.entity_type = v) ∧
    (msg.x = none → tr2.x = tr.x) ∧
    (∀ v, msg.x = some v → pyFloat v = some tr2.x) ∧
    (msg.y = none → tr2.y = tr.y) ∧
    (∀ v, msg.y = some v → pyFloat v = some tr2.y) ∧
    (msg.heading_deg = none → tr2.heading = wrap360 tr.heading ∧
       (0 ≤ tr.heading → tr.heading < 360 → tr2.heading = tr.heading)) ∧
    (∀ v q, msg.heading_deg = some v → pyFloat v = some q →
       tr2.heading = wrap360 q) ∧
    (msg.speed = none → tr2.speed = tr.speed) ∧
    (∀ v, msg.speed = some v → pyFloat v = some tr2.speed) ∧
    (msg.status = none → tr2.status = tr.status) ∧
    (∀ v, msg.status = some v → tr2.status = pyStr v) ∧
    (msg.seq = none → tr2.seq = tr.seq) ∧
    (∀ v, msg.seq = some v → pyInt v = some tr2.seq) := by
  simp only [TrackState.update_from_msg] at h
  split at h
  next => simp at h
  next xv hx =>
    split at h
    next => simp at h
    next yv hy =>
      split at h
      next => simp at h
      next hv hh =>
        split at h
        next => simp at h
        next sv hs =>
          split at h
          next => simp at h
          next sq hq =>
            obtain ⟨h1, -⟩ := Prod.mk.injEq .. ▸ h
            subst h1
            refine ⟨?_, ?_, ?_, ?_, ?_, ?_, ?_, ?_, ?_, ?_, ?_, ?_, ?_, ?_, ?_, ?_⟩
            · intro hf; simp [hf]
            · intro v hf; simp [hf]
            · intro hf; simp [hf]
            · intro v hf; simp [hf]
            · intro hf; rw [hf] at hx; simpa [getFloat] using hx.symm
            · intro v hf; rw [hf] at hx; simpa [getFloat] using hx
            · intro hf; rw [hf] at hy; simpa [getFloat] using hy.symm
            · intro v hf; rw [hf] at hy; simpa [getFloat] using hy
            · intro hf
              rw [hf] at hh
              simp only [getFloat, Option.some.injEq] at hh
              subst hh
              exact ⟨rfl, fun h0 h1 => wrap360_eq_self _ h0 h1⟩
            · intro v q hf hq2
              rw [hf] at hh
              simp only [getFloat] at hh
              rw [hq2] at hh
              simp only [Option.some.injEq] at hh
              subst hh
              rfl
            · intro hf; rw [hf] at hs; simpa [getFloat] using hs.symm
            · intro v hf; rw [hf] at hs; simpa [getFloat] using hs
            · intro hf; simp [getStr, hf]
            · intro v hf; simp [getStr, hf]
            · intro hf; rw [hf] at hq; simpa [getInt] using hq.symm
            · intro v hf; rw [hf] at hq; simpa [getInt] using hq

/-- A message whose only payload field is `x = 7`. -/
def c2XMsg : Msg := { emptyMsg with x := some (.num 7) }

theorem C2_witness :
    pyFloat (.num 7) = some ((TrackState.update_from_msg initTrack c2XMsg 1).1.x) ∧
    (TrackState.update_from_msg initTrack c2XMsg 1).1.speed = initTrack.speed := by
  have h := C2_amended_thm initTrack c2XMsg 1
    (TrackState.update_from_msg initTrack c2XMsg 1).1
    (Prod.ext_iff.mpr ⟨rfl, by decide⟩)
  exact ⟨h.2.2.2.2.2.1 (.num 7) rfl, h.2.2.2.2.2.2.2.2.2.2.1 rfl⟩

/-- An EntityState message whose `y` is null: `float(None)` raises after
`entity_id`, `entity_type` and `x` have already been assigned. -/
def c1BadMsg : Msg :=
  { emptyMsg with msg_type := some (.str "EntityState"),
                  entity_id := some (.num 1), x := some (.num 7),
                  y := some .null, heading_deg := some (.num 90),
                  seq := some (.num 3) }

/-- Claim C1 counterexample: on a coercion failure the message is NOT
rejected without partial application and processing does NOT continue.  For
`c1BadMsg` (y null) the freshly created track keeps `x = 7` (prior 0), the
exception escapes `process_message` (flag false), and a following message in
the same batch is never processed (total counter stays 1, not 2). -/
theorem C1_counterexample :
    (TrackState.update_from_msg initTrack c1BadMsg 5).2 = false ∧
    (TrackState.update_from_msg initTrack c1BadMsg 5).1.x = 7 ∧
    initTrack.x = 0 ∧
    (ingest initRx [c1BadMsg, mkSeqMsg 4] 5).2 = false ∧
    (ingest initRx [c1BadMsg, mkSeqMsg 4] 5).1.msg_count_total = 1 :=
  ⟨by decide, by decide, rfl, by decide, by decide⟩

/-- Claim C1 as amended: when a required numeric field fails to coerce, the
assignments made before the failing one keep their new values (fields are
written in order entity_id, entity_type, x, y, heading, speed, status, seq)
while the failing and later fields keep their prior values; `last_rx_time`
and the history are not updated; the message was nevertheless counted by
both packet counters (there is no separate validation-failure counter); and
the exception propagates out of `process_message`, so the remaining messages
of the batch are not processed. -/
theorem C1_amended_thm :
    (∀ (tr : TrackState) (msg : Msg) (rx : ℚ) (tr2 : TrackState),
       TrackState.update_from_msg tr msg rx = (tr2, false) →
       tr2.last_rx_time = tr.last_rx_time ∧ tr2.history = tr.history ∧
       tr2.entity_id = msg.entity_id.getD tr.entity_id ∧
       tr2.entity_type = msg.entity_type.getD tr.entity_type ∧
       (getFloat msg.x tr.x = none →
          tr2.x = tr.x ∧ tr2.y = tr.y ∧ tr2.heading = tr.heading ∧
          tr2.speed = tr.speed ∧ tr2.status = tr.status ∧ tr2.seq = tr.seq) ∧
       (∀ xv, getFloat msg.x tr.x = some xv → getFloat msg.y tr.y = none →
          tr2.x = xv ∧ tr2.y = tr.y ∧ tr2.heading = tr.heading ∧
          tr2.speed = tr.speed ∧ tr2.status = tr.status ∧ tr2.seq = tr.seq) ∧
       (∀ xv yv, getFloat msg.x tr.x = some xv → getFloat msg.y tr.y = some yv →
          getFloat msg.heading_deg tr.heading = none →
          tr2.x = xv ∧ tr2.y = yv ∧ tr2.heading = tr.heading ∧
          tr2.speed = tr.speed ∧ tr2.status = tr.status ∧ tr2.seq = tr.seq) ∧
       (∀ xv yv hv, getFloat msg.x tr.x = some xv →
          getFloat msg.y tr.y = some yv →
          getFloat msg.heading_deg tr.heading = some hv →
          getFloat msg.speed tr.speed = none →
          tr2.x = xv ∧ tr2.y = yv ∧ tr2.heading = wrap360 hv ∧
          tr2.speed = tr.speed ∧ tr2.status = tr.status ∧ tr2.seq = tr.seq) ∧
       (∀ xv yv hv sv, getFloat msg.x tr.x = some xv →
          getFloat msg.y tr.y = some yv →
          getFloat msg.heading_deg tr.heading = some hv →
          getFloat msg.speed tr.speed = some sv →
          getInt msg.seq tr.seq = none →
          tr2.x = xv ∧ tr2.y = yv ∧ tr2.heading = wrap360 hv ∧
          tr2.speed = sv ∧ tr2.status = getStr msg.status tr.status ∧
          tr2.seq = tr.seq)) ∧
    (∀ (st : RxState) (msg : Msg) (rx : ℚ) (st2 : RxState),
       process_message st msg rx = (st2, false) →
       st2.msg_count_total = st.msg_count_total + 1 ∧
       st2.msg_count_window = st.msg_count_window + 1) ∧
    (∀ (st : RxState) (msg : Msg) (rx : ℚ) (st2 : RxState) (rest : List Msg),
       process_message st msg rx = (st2, false) →
       ingest st (msg :: rest) rx = (st2, false)) := by
  refine ⟨?_, ?_, ?_⟩
  · intro tr msg rx tr2 h
    simp only [TrackState.update_from_msg] at h
    split at h
    next hx =>
      obtain ⟨h1, -⟩ := Prod.mk.injEq .. ▸ h
      subst h1
      refine ⟨rfl, rfl, rfl, rfl, fun _ => ⟨rfl, rfl, rfl, rfl, rfl, rfl⟩,
        ?_, ?_, ?_, ?_⟩
      · intro xv hx2 _; rw [hx2] at hx; exact absurd hx (by simp)
      · intro xv yv hx2 _ _; rw [hx2] at hx; exact absurd hx (by simp)
      · intro xv yv hv hx2 _ _ _; rw [hx2] at hx; exact absurd hx (by simp)
      · intro xv yv hv sv hx2 _ _ _ _; rw [hx2] at hx; exact absurd hx (by simp)
    next xv hx =>
      split at h
      next hy =>
        obtain ⟨h1, -⟩ := Prod.mk.injEq .. ▸ h
        subst h1
        refine ⟨rfl, rfl, rfl, rfl, ?_, ?_, ?_, ?_, ?_⟩
        · intro hx2; rw [hx2] at hx; exact absurd hx (by simp)
        · intro xv2 hx2 _
          rw [hx2] at hx
          obtain rfl : xv2 = xv := by simpa using hx
          exact ⟨rfl, rfl, rfl, rfl, rfl, rfl⟩
        · intro xv2 yv2 _ hy2 _; rw [hy2] at hy; exact absurd hy (by simp)
        · intro xv2 yv2 hv2 _ hy2 _ _; rw [hy2] at hy; exact absurd hy (by simp)
        · intro xv2 yv2 hv2 sv2 _ hy2 _ _ _
          rw [hy2] at hy; exact absurd hy (by simp)
      next yv hy =>
        split at h
        next hh =>
          obtain ⟨h1, -⟩ := Prod.mk.injEq .. ▸ h
          subst h1
          refine ⟨rfl, rfl, rfl, rfl, ?_, ?_, ?_, ?_, ?_⟩
          · intro hx2; rw [hx2] at hx; exact absurd hx (by simp)
          · intro xv2 _ hy2; rw [hy2] at hy; exact absurd hy (by simp)
          · intro xv2 yv2 hx2 hy2 _
            rw [hx2] at hx; rw [hy2] at hy
            obtain rfl : xv2 = xv := by simpa using hx
            obtain rfl : yv2 = yv := by simpa using hy
            exact ⟨rfl, rfl, rfl, rfl, rfl, rfl⟩
          · intro xv2 yv2 hv2 _ _ hh2 _; rw [hh2] at hh; exact absurd hh (by simp)
          · intro xv2 yv2 hv2 sv2 _ _ hh2 _ _
            rw [hh2] at hh; exact absurd hh (by simp)
        next hv hh =>
          split at h
          next hs =>
            obtain ⟨h1, -⟩ := Prod.mk.injEq .. ▸ h
            subst h1
            refine ⟨rfl, rfl, rfl, rfl, ?_, ?_, ?_, ?_, ?_⟩
            · intro hx2; rw [hx2] at hx; exact absurd hx (by simp)
            · intro xv2 _ hy2; rw [hy2] at hy; exact absurd hy (by simp)
            · intro xv2 yv2 _ _ hh2; rw [hh2] at hh; exact absurd hh (by simp)
            · intro xv2 yv2 hv2 hx2 hy2 hh2 _
              rw [hx2] at hx; rw [hy2] at hy; rw [hh2] at hh
              obtain rfl : xv2 = xv := by simpa using hx
              obtain rfl : yv2 = yv := by simpa using hy
              obtain rfl : hv2 = hv := by simpa using hh
              exact ⟨rfl, rfl, rfl, rfl, rfl, rfl⟩
            · intro xv2 yv2 hv2 sv2 _ _ _ hs2 _
              rw [hs2] at hs; exact absurd hs (by simp)
          next sv hs =>
            split at h
            next hq =>
              obtain ⟨h1, -⟩ := Prod.mk.injEq .. ▸ h
              subst h1
              refine ⟨rfl, rfl, rfl, rfl, ?_, ?_, ?_, ?_, ?_⟩
              · intro hx2; rw [hx2] at hx; exact absurd hx (by simp)
              · intro xv2 _ hy2; rw [hy2] at hy; exact absurd hy (by simp)
              · intro xv2 yv2 _ _ hh2; rw [hh2] at hh; exact absurd hh (by simp)
              · intro xv2 yv2 hv2 _ _ _ hs2; rw [hs2] at hs; exact absurd hs (by simp)
              · intro xv2 yv2 hv2 sv2 hx2 hy2 hh2 hs2 _
                rw [hx2] at hx; rw [hy2] at hy; rw [hh2] at hh; rw [hs2] at hs
                obtain rfl : xv2 = xv := by simpa using hx
                obtain rfl : yv2 = yv := by simpa using hy
                obtain rfl : hv2 = hv := by simpa using hh
                obtain rfl : sv2 = sv := by simpa using hs
                exact ⟨rfl, rfl, rfl, rfl, rfl, rfl⟩
            next sq hq => simp at h
  · intro st msg rx st2 h
    simp only [process_message] at h
    split at h
    next => simp at h
    next hmt =>
      split at h
      next => simp at h
      next => simp at h
      next eid heid =>
        obtain ⟨h1, -⟩ := Prod.mk.injEq .. ▸ h
        subst h1
        exact ⟨rfl, rfl⟩
  · intro st msg rx st2 rest h
    simp [ingest, h]

theorem C1_witness :
    ((TrackState.update_from_msg initTrack c1BadMsg 5).1.x = 7 ∧
     (TrackState.update_from_msg initTrack c1BadMsg 5).1.y = initTrack.y ∧
     (TrackState.update_from_msg initTrack c1BadMsg 5).1.heading = initTrack.heading ∧
     (TrackState.update_from_msg initTrack c1BadMsg 5).1.speed = initTrack.speed ∧
     (TrackState.update_from_msg initTrack c1BadMsg 5).1.status = initTrack.status ∧
     (TrackState.update_from_msg initTrack c1BadMsg 5).1.seq = initTrack.seq) ∧
    ingest initRx [c1BadMsg, mkSeqMsg 4] 5 =
      ((process_message initRx c1BadMsg 5).1, false) := by
  constructor
  · exact (C1_amended_thm.1 initTrack c1BadMsg 5
      (TrackState.update_from_msg initTrack c1BadMsg 5).1
      (Prod.ext_iff.mpr ⟨rfl, by decide⟩)).2.2.2.2.2.1 7 rfl rfl
  · exact C1_amended_thm.2.2 initRx c1BadMsg 5
      (process_message initRx c1BadMsg 5).1 [mkSeqMsg 4]
      (Prod.ext_iff.mpr ⟨rfl, by decide⟩)

/-- A live-mode UI state with one existing track, used by the replay-load
scenarios. -/
def c3UiLive : UiState :=
  { mode := .live, tracks := [(.num 1, initTrack)], rep := clearedReplayer }

/-- Claim C3 counterexample: for a missing capture file, `load` does not
report failure through its result value — `open` raises `FileNotFoundError`
(modelled as result `none`), and the exception escapes the caller's event
loop (`handlePKey` result `none`), crashing the receiver. -/
theorem C3_counterexample :
    Replayer.load none = (clearedReplayer, none) ∧
    (Replayer.load none).2 ≠ some false ∧
    handlePKey c3UiLive none 0 = none :=
  ⟨rfl, by decide, rfl⟩

/-- Claim C3 as amended: for an existing capture file in which zero lines
parse, `load` returns failure (False) and the caller stays in live mode with
the track store untouched (only the replayer object itself has been reset);
for a missing file, however, `load` raises instead of reporting by result,
and the exception propagates through the caller. -/
theorem C3_amended_thm :
    (∀ lines : List (Option CaptureLine), lines.filterMap parseLine = [] →
       Replayer.load (some lines) = (clearedReplayer, some false)) ∧
    (∀ (ui : UiState) (lines : List (Option CaptureLine)) (now : ℚ),
       ui.mode = .live → lines.filterMap parseLine = [] →
       handlePKey ui (some lines) now = some { ui with rep := clearedReplayer }) ∧
    (∀ (ui : UiState) (now : ℚ), ui.mode = .live →
       handlePKey ui none now = none) := by
  refine ⟨?_, ?_, ?_⟩
  · intro lines hp
    simp [Replayer.load, hp]
  · intro ui lines now hm hp
    simp [handlePKey, hm, Replayer.load, hp]
  · intro ui now hm
    simp [handlePKey, hm, Replayer.load]

theorem C3_witness :
    handlePKey c3UiLive (some [none]) 0 = some { c3UiLive with rep := clearedReplayer } :=
  C3_amended_thm.2.1 c3UiLive [none] 0 rfl rfl

/-- A sender whose entity 1001 has an active heading-noise window. -/
def c4SenderNoise : UdpSimSender :=
  { faults_enabled := true, fault_check_interval := 1, fault_trigger_prob := 1 / 10,
    last_fault_check := 0,
    faults := [(1001, { jam_until := 0, drop_burst_remaining := 0,
                        heading_noise_until := 10, heading_noise_deg := 5 })],
    total_packets_jammed_fault := 0, total_packets_dropped_fault := 0 }

/-- The entity the noise window belongs to. -/
def c4Ent : Entity :=
  { entity_id := 1001, entity_type := "SUB", x := 0, y := 0, heading := 10,
    speed := 1, status := "OK" }

/-- An outgoing message of `c4Ent` as `send_all` builds it. -/
def c4MsgOK : Msg :=
  { emptyMsg with msg_type := some (.str "EntityState"),
                  entity_id := some (.num 1001), entity_type := some (.str "SUB"),
                  x := some (.num 0), y := some (.num 0),
                  heading_deg := some (.num 10), speed := some (.num 1),
                  status := some (.str "OK"), seq := some (.num 1) }

/-- Claim C4 counterexample: while the heading-noise window is active the
sent message does NOT have only `heading_deg` changed — the source also
rewrites `status` to "NOISY" (here the input status was "OK"). -/
theorem C4_counterexample :
    (c4SenderNoise.apply_faults_to_msg c4Ent 1 2 c4MsgOK).2.2.2.status =
      some (.str "NOISY") ∧
    c4MsgOK.status = some (.str "OK") :=
  ⟨by decide, rfl⟩

/-- Claim C4 as amended: fault application checks jam first (suppress, count
as jammed, burst counter untouched); else an open drop burst suppresses,
decrements and counts as dropped; else an active noise window sends a copy
with `heading_deg` perturbed and wrapped into [0,360) AND `status` rewritten
to "NOISY", all other message fields and the entity unchanged; otherwise the
message is sent unmodified (only the expired noise magnitude is zeroed). -/
theorem C4_amended_thm :
    (∀ (s : UdpSimSender) (ent : Entity) (f : FaultState) (now_ts noise : ℚ)
       (msg : Msg),
       alGet s.faults ent.entity_id = some f → now_ts < f.jam_until →
       s.apply_faults_to_msg ent now_ts noise msg =
         ({ s with total_packets_jammed_fault := s.total_packets_jammed_fault + 1 },
          ent, false, msg)) ∧
    (∀ (s : UdpSimSender) (ent : Entity) (f : FaultState) (now_ts noise : ℚ)
       (msg : Msg),
       alGet s.faults ent.entity_id = some f → ¬ now_ts < f.jam_until →
       0 < f.drop_burst_remaining →
       s.apply_faults_to_msg ent now_ts noise msg =
         ({ s with
             faults := alSet s.faults ent.entity_id
               { f with drop_burst_remaining := f.drop_burst_remaining - 1 },
             total_packets_dropped_fault := s.total_packets_dropped_fault + 1 },
          ent, false, msg)) ∧
    (∀ (s : UdpSimSender) (ent : Entity) (f : FaultState) (now_ts noise : ℚ)
       (msg : Msg) (q : ℚ),
       alGet s.faults ent.entity_id = some f → ¬ now_ts < f.jam_until →
       ¬ 0 < f.drop_burst_remaining → now_ts < f.heading_noise_until →
       getFloat msg.heading_deg 0 = some q →
       s.apply_faults_to_msg ent now_ts noise msg =
         (s, ent, true,
          { msg with heading_deg := some (.num (wrap360 (q + noise))),
                     status := some (.str "NOISY") }) ∧
       0 ≤ wrap360 (q + noise) ∧ wrap360 (q + noise) < 360) ∧
    (∀ (s : UdpSimSender) (ent : Entity) (f : FaultState) (now_ts noise : ℚ)
       (msg : Msg),
       alGet s.faults ent.entity_id = some f → ¬ now_ts < f.jam_until →
       ¬ 0 < f.drop_burst_remaining → ¬ now_ts < f.heading_noise_until →
       s.apply_faults_to_msg ent now_ts noise msg =
         ({ s with faults := (alSet s.faults ent.entity_id
              { f with heading_noise_deg := 0 }) },
          ent, true, msg)) := by
  refine ⟨?_, ?_, ?_, ?_⟩
  · intro s ent f now_ts noise msg hf hjam
    simp [UdpSimSender.apply_faults_to_msg, hf, hjam]
  · intro s ent f now_ts noise msg hf hjam hdrop
    simp [UdpSimSender.apply_faults_to_msg, hf, hjam, hdrop]
  · intro s ent f now_ts noise msg q hf hjam hdrop hnoise hq
    refine ⟨?_, wrap360_nonneg _, wrap360_lt _⟩
    simp [UdpSimSender.apply_faults_to_msg, hf, hjam, hdrop, hnoise, hq]
  · intro s ent f now_ts noise msg hf hjam hdrop hnoise
    simp [UdpSimSender.apply_faults_to_msg, hf, hjam, hdrop, hnoise]

theorem C4_witness :
    c4SenderNoise.apply_faults_to_msg c4Ent 1 2 c4MsgOK =
      (c4SenderNoise, c4Ent, true,
       { c4MsgOK with heading_deg := some (.num (wrap360 (10 + 2))),
                      status := some (.str "NOISY") }) :=
  ((C4_amended_thm.2.2.1 c4SenderNoise c4Ent
      { jam_until := 0, drop_burst_remaining := 0,
        heading_noise_until := 10, heading_noise_deg := 5 }
      1 2 c4MsgOK 10 rfl (by norm_num) (by norm_num) (by norm_num) rfl).1)

/-- Claim C8: a trigger draw that selects an entity whose fault state is
still active (jam window open, burst positive, or noise window open) starts
no new window and leaves the whole fault table unchanged — only the throttle
timestamp advances. -/
theorem C8_thm (s : UdpSimSender) (now_ts roll : ℚ) (eid : ℤ) (f : FaultState)
    (kind : FaultKind) (dur : ℚ) (count : ℤ) (deg : ℚ)
    (hen : s.faults_enabled = true)
    (hthr : ¬ now_ts - s.last_fault_check < s.fault_check_interval)
    (hroll : ¬ s.fault_trigger_prob < roll)
    (hf : alGet s.faults eid = some f)
    (hact : UdpSimSender.fault_active f now_ts = true) :
    s.maybe_inject_random_fault now_ts roll eid kind dur count deg =
      { s with last_fault_check := now_ts } ∧
    alGet (s.maybe_inject_random_fault now_ts roll eid kind dur count deg).faults
        eid = some f := by
  have h1 : s.maybe_inject_random_fault now_ts roll eid kind dur count deg =
      { s with last_fault_check := now_ts } := by
    simp [UdpSimSender.maybe_inject_random_fault, hen, hthr, hroll, hf, hact]
  exact ⟨h1, by rw [h1]; exact hf⟩

/-- A sender whose entity 7 has an open jam window. -/
def c8Sender : UdpSimSender :=
  { faults_enabled := true, fault_check_interval := 1, fault_trigger_prob := 1 / 10,
    last_fault_check := 0,
    faults := [(7, { jam_until := 10, drop_burst_remaining := 0,
                     heading_noise_until := 0, heading_noise_deg := 0 })],
    total_packets_jammed_fault := 0, total_packets_dropped_fault := 0 }

theorem C8_witness :
    c8Sender.maybe_inject_random_fault 5 (1 / 100) 7 .jam 3 0 0 =
      { c8Sender with last_fault_check := 5 } ∧
    alGet (c8Sender.maybe_inject_random_fault 5 (1 / 100) 7 .jam 3 0 0).faults 7 =
      some { jam_until := 10, drop_burst_remaining := 0,
             heading_noise_until := 0, heading_noise_deg := 0 } :=
  C8_thm c8Sender 5 (1 / 100) 7
    { jam_until := 10, drop_burst_remaining := 0,
      heading_noise_until := 0, heading_noise_deg := 0 }
    .jam 3 0 0 rfl (by norm_num [c8Sender]) (by norm_num [c8Sender]) rfl
    (by norm_num [UdpSimSender.fault_active])

theorem pollCount_le_fuel (l : List ReplayItem) (e : ℚ) (n : ℕ) :
    pollCount l e n ≤ n := by
  induction l generalizing n with
  | nil => simp [pollCount]
  | cons hd tl ih =>
    cases n with
    | zero => simp [pollCount]
    | succ m =>
      simp only [pollCount]
      split
      · exact Nat.succ_le_succ (ih m)
      · exact Nat.zero_le _

theorem pollCount_le_length (l : List ReplayItem) (e : ℚ) (n : ℕ) :
    pollCount l e n ≤ l.length := by
  induction l generalizing n with
  | nil => simp [pollCount]
  | cons hd tl ih =>
    cases n with
    | zero => simp [pollCount]
    | succ m =>
      simp only [pollCount, List.length_cons]
      split
      · exact Nat.succ_le_succ (ih m)
      · exact Nat.zero_le _

theorem pollCount_due (l : List ReplayItem) (e : ℚ) (n : ℕ) (i : ℕ)
    (hi : i < l.length) (hk : i < pollCount l e n) : (l.get ⟨i, hi⟩).t ≤ e := by
  induction l generalizing n i with
  | nil => simp at hi
  | cons hd tl ih =>
    cases n with
    | zero => simp [pollCount] at hk
    | succ m =>
      simp only [pollCount] at hk
      by_cases hle : hd.t ≤ e
      · rw [if_pos hle] at hk
        cases i with
        | zero => exact hle
        | succ j =>
          exact ih m j (Nat.lt_of_succ_lt_succ hi) (Nat.lt_of_succ_lt_succ hk)
      · rw [if_neg hle] at hk
        simp at hk

theorem pollCount_stop : ∀ (l : List ReplayItem) (e : ℚ) (n : ℕ),
    pollCount l e n < n →
    ∀ it : ReplayItem, l.get? (pollCount l e n) = some it → e < it.t
  | [], _, _, _, it, h => by simp at h
  | hd :: tl, e, 0, hn, it, h => by simp at hn
  | hd :: tl, e, n + 1, hn, it, h => by
      by_cases hle : hd.t ≤ e
      · rw [show pollCount (hd :: tl) e (n + 1) = pollCount tl e n + 1 from
          by simp [pollCount, hle]] at hn h
        exact pollCount_stop tl e n (Nat.lt_of_succ_lt_succ hn) it (by simpa using h)
      · rw [show pollCount (hd :: tl) e (n + 1) = 0 from
          by simp [pollCount, hle]] at h
        simp only [List.get?] at h
        obtain rfl : hd = it := by simpa using h
        exact lt_of_not_le hle

theorem pollCount_sorted : ∀ (l : List ReplayItem) (e : ℚ) (n : ℕ),
    l.Pairwise (fun a b => a.t ≤ b.t) →
    pollCount l e n = min n (l.countP (fun it => decide (it.t ≤ e)))
  | [], e, n, _ => by simp [pollCount]
  | hd :: tl, e, 0, _ => by simp [pollCount]
  | hd :: tl, e, n + 1, hs => by
      rcases List.pairwise_cons.mp hs with ⟨hhd, htl⟩
      by_cases hle : hd.t ≤ e
      · simp only [pollCount, if_pos hle, List.countP_cons, decide_eq_true_eq,
          if_pos hle]
        rw [pollCount_sorted tl e n htl]
        simp [Nat.succ_min_succ]
      · have hc : tl.countP (fun it => decide (it.t ≤ e)) = 0 := by
          rw [List.countP_eq_zero]
          intro a ha
          simp only [decide_eq_true_eq]
          exact fun hat => hle (le_trans (hhd a ha) hat)
        simp [pollCount, hle, List.countP_cons, hc]

/-- Claim C6: for a loaded and started replayer, `poll(maxPerCycle)`
releases, in file order, the not-yet-released items due by the elapsed time
(at most `maxPerCycle` of them), stops at the first not-yet-due item without
disabling the scheduler, and disables the scheduler exactly when the cursor
has passed the last item.  (The "exactly the due items" reading is stated
under the file-order-sorted offsets the capture format assumes; the
unconditional parts describe the stop-at-first-not-due walk.) -/
theorem C6_thm (rp : Replayer) (now s : ℚ) (maxN : ℕ)
    (rest : List ReplayItem) (k : ℕ)
    (hen : rp.enabled = true) (hs : rp.replay_start_wall = some s)
    (hne : rp.items ≠ [])
    (hrest : rest = rp.items.drop rp.index)
    (hk : k = pollCount rest (now - s) maxN) :
    rp.poll now maxN =
      some ({ rp with index := rp.index + k,
                      enabled := decide (rp.index + k < rp.items.length) },
            (rest.take k).map ReplayItem.msg) ∧
    k ≤ maxN ∧
    (∀ (i : ℕ) (hi : i < rest.length), i < k → (rest.get ⟨i, hi⟩).t ≤ now - s) ∧
    (∀ it : ReplayItem, k < maxN → rest.get? k = some it → now - s < it.t) ∧
    (({ rp with index := rp.index + k,
                enabled := decide (rp.index + k < rp.items.length) } :
        Replayer).enabled = false ↔ rp.items.length ≤ rp.index + k) ∧
    (rest.Pairwise (fun a b => a.t ≤ b.t) →
      k = min maxN (rest.countP (fun it => decide (it.t ≤ now - s)))) := by
  subst hrest hk
  refine ⟨?_, pollCount_le_fuel _ _ _,
    fun i hi hik => pollCount_due _ _ _ i hi hik,
    fun it hn hg => pollCount_stop _ _ _ hn it hg, ?_,
    fun hsort => pollCount_sorted _ _ _ hsort⟩
  · simp only [Replayer.poll, hs, hen]
    rw [if_neg (by simp [hne])]
    have hb : (if rp.items.length ≤
          rp.index + pollCount (rp.items.drop rp.index) (now - s) maxN
        then false else true) =
        decide (rp.index + pollCount (rp.items.drop rp.index) (now - s) maxN <
          rp.items.length) := by
      by_cases hc : rp.items.length ≤
          rp.index + pollCount (rp.items.drop rp.index) (now - s) maxN
      · simp [hc, Nat.not_lt.mpr hc]
      · simp [hc, Nat.lt_of_not_le hc]
    rw [hb]
  · simp [decide_eq_false_iff_not]

/-- A loaded and started two-item replayer: offsets 0 and 10, started at
wall-clock 0. -/
def c6Replayer : Replayer :=
  { enabled := true,
    items := [{ t := 0, msg := emptyMsg }, { t := 10, msg := mkSeqMsg 2 }],
    index := 0, replay_start_wall := some 0 }

theorem C6_witness :
    c6Replayer.poll 1 200 =
      some ({ c6Replayer with
                index := c6Replayer.index + 1,
                enabled := decide (c6Replayer.index + 1 < c6Replayer.items.length) },
            ((c6Replayer.items.drop c6Replayer.index).take 1).map ReplayItem.msg) ∧
    (1 : ℕ) ≤ 200 ∧
    (∀ (i : ℕ) (hi : i < (c6Replayer.items.drop c6Replayer.index).length),
       i < 1 → ((c6Replayer.items.drop c6Replayer.index).get ⟨i, hi⟩).t ≤ 1 - 0) ∧
    (∀ it : ReplayItem, 1 < 200 →
       (c6Replayer.items.drop c6Replayer.index).get? 1 = some it →
       (1 : ℚ) - 0 < it.t) ∧
    (({ c6Replayer with
          index := c6Replayer.index + 1,
          enabled := decide (c6Replayer.index + 1 < c6Replayer.items.length) } :
        Replayer).enabled = false ↔
      c6Replayer.items.length ≤ c6Replayer.index + 1) ∧
    ((c6Replayer.items.drop c6Replayer.index).Pairwise (fun a b => a.t ≤ b.t) →
      1 = min 200 ((c6Replayer.items.drop c6Replayer.index).countP
        (fun it => decide (it.t ≤ 1 - 0)))) :=
  C6_thm c6Replayer 1 0 200 (c6Replayer.items.drop c6Replayer.index) 1
    rfl rfl (by decide) rfl (by norm_num [c6Replayer, pollCount])
